import Mathlib

/-!
Shallow embedding of GPinv/likelihoods.py (classes StochasticLikelihood,
Gaussian, Poisson) and proofs about its stochastic_expectations paths.

Tensors are modelled as an explicit shape together with an entry function;
every tensor produced by an operation is normalized so that entries outside
the shape are 0.  Fallible tensorflow graph construction is modelled with
Except: a shape check that tensorflow rejects at graph-construction time
becomes Except.error.  Random sampling happens only when a built graph is
run, so graph construction itself consumes nothing from the random stream;
the stream is threaded explicitly as a function from an index to a scalar.

The scalar type is a parameter K (a Field); theorems about numeric values
instantiate K with the reals together with Real.log and Real.pi, while
witnesses whose content is shape or error behaviour may instantiate K with
the rationals to make the checks decidable.
-/

/-- Errors raised during graph construction or method dispatch.
shapeMismatch models a tensorflow shape or broadcast incompatibility,
invalidOp models an op called with malformed static arguments (for example
tf.tile whose multiples vector length differs from the tensor rank),
attributeError models a failed python attribute lookup, and
unimplementedCapability models a NotImplementedError raise. -/
inductive Err where
  | shapeMismatch
  | invalidOp
  | attributeError
  | unimplementedCapability
deriving DecidableEq, Repr

/-- Rank 2 tensor: shape [n1, n2] with an entry function. -/
structure T2 (K : Type) where
  n1 : ℕ
  n2 : ℕ
  ent : ℕ → ℕ → K

/-- Rank 3 tensor: shape [n1, n2, n3] with an entry function. -/
structure T3 (K : Type) where
  n1 : ℕ
  n2 : ℕ
  n3 : ℕ
  ent : ℕ → ℕ → ℕ → K

/-- Rank 4 tensor: shape [n1, n2, n3, n4] with an entry function. -/
structure T4 (K : Type) where
  n1 : ℕ
  n2 : ℕ
  n3 : ℕ
  n4 : ℕ
  ent : ℕ → ℕ → ℕ → ℕ → K

variable {K : Type} [Field K]

/-- Normalizing rank 2 constructor: entries outside the shape are 0. -/
def T2.mk2 (a b : ℕ) (f : ℕ → ℕ → K) : T2 K :=
  ⟨a, b, fun i j => if i < a ∧ j < b then f i j else 0⟩

/-- Normalizing rank 3 constructor: entries outside the shape are 0. -/
def T3.mk3 (a b c : ℕ) (f : ℕ → ℕ → ℕ → K) : T3 K :=
  ⟨a, b, c, fun i j k => if i < a ∧ j < b ∧ k < c then f i j k else 0⟩

/-- Normalizing rank 4 constructor: entries outside the shape are 0. -/
def T4.mk4 (a b c d : ℕ) (f : ℕ → ℕ → ℕ → ℕ → K) : T4 K :=
  ⟨a, b, c, d, fun i j k l => if i < a ∧ j < b ∧ k < c ∧ l < d then f i j k l else 0⟩

/-- Broadcast of one dimension pair: equal dimensions broadcast to
themselves, a dimension of 1 stretches to the other, anything else is
incompatible. -/
def bcastDim (a b : ℕ) : Option ℕ :=
  if a = b then some a else if a = 1 then some b else if b = 1 then some a else none

/-- Index into a possibly stretched dimension: a dimension of 1 is read at 0. -/
def bidx (d i : ℕ) : ℕ := if d = 1 then 0 else i

/-- tf.transpose on a rank 2 tensor. -/
def tfTranspose2 (A : T2 K) : T2 K := T2.mk2 A.n2 A.n1 (fun i j => A.ent j i)

/-- tf.transpose(., [2,0,1]) on a rank 3 tensor. -/
def tfTranspose201 (L : T3 K) : T3 K :=
  T3.mk3 L.n3 L.n1 L.n2 (fun m i j => L.ent i j m)

/-- tf.batch_matmul(A, B, adj_y=True): per batch slice, A times the
transpose of B.  Requires equal batch counts and equal contraction
dimensions. -/
def tfBatchMatmulAdjY (A B : T3 K) : Except Err (T3 K) :=
  if A.n1 = B.n1 ∧ A.n3 = B.n3 then
    Except.ok (T3.mk3 A.n1 A.n2 B.n2
      (fun b i j => ∑ k ∈ Finset.range A.n3, A.ent b i k * B.ent b j k))
  else Except.error Err.shapeMismatch

/-- tf.batch_matrix_diag_part: diagonal of each batch slice, which must be
square. -/
def tfBatchMatrixDiagPart (P : T3 K) : Except Err (T2 K) :=
  if P.n2 = P.n3 then
    Except.ok (T2.mk2 P.n1 P.n2 (fun b i => P.ent b i i))
  else Except.error Err.shapeMismatch

/-- Elementwise broadcasting combination of two rank 2 tensors. -/
def T2.zipB (f : K → K → K) (A B : T2 K) : Except Err (T2 K) :=
  match bcastDim A.n1 B.n1, bcastDim A.n2 B.n2 with
  | some d1, some d2 =>
      Except.ok (T2.mk2 d1 d2 (fun i j =>
        f (A.ent (bidx A.n1 i) (bidx A.n2 j)) (B.ent (bidx B.n1 i) (bidx B.n2 j))))
  | _, _ => Except.error Err.shapeMismatch

/-- Elementwise map on a rank 2 tensor. -/
def T2.map (f : K → K) (A : T2 K) : T2 K := T2.mk2 A.n1 A.n2 (fun i j => f (A.ent i j))

/-- Elementwise map on a rank 3 tensor. -/
def T3.map3 (f : K → K) (A : T3 K) : T3 K :=
  T3.mk3 A.n1 A.n2 A.n3 (fun i j k => f (A.ent i j k))

/-- Elementwise broadcasting combination of two rank 3 tensors. -/
def T3.zipB3 (f : K → K → K) (A B : T3 K) : Except Err (T3 K) :=
  match bcastDim A.n1 B.n1, bcastDim A.n2 B.n2, bcastDim A.n3 B.n3 with
  | some d1, some d2, some d3 =>
      Except.ok (T3.mk3 d1 d2 d3 (fun i j k =>
        f (A.ent (bidx A.n1 i) (bidx A.n2 j) (bidx A.n3 k))
          (B.ent (bidx B.n1 i) (bidx B.n2 j) (bidx B.n3 k))))
  | _, _, _ => Except.error Err.shapeMismatch

/-- Broadcasting combination of a rank 3 tensor with a rank 2 tensor over
the two trailing axes, as numpy style broadcasting aligns trailing
dimensions. -/
def T3.zip2B (f : K → K → K) (G : T3 K) (A : T2 K) : Except Err (T3 K) :=
  match bcastDim G.n2 A.n1, bcastDim G.n3 A.n2 with
  | some d2, some d3 =>
      Except.ok (T3.mk3 G.n1 d2 d3 (fun s i j =>
        f (G.ent s (bidx G.n2 i) (bidx G.n3 j)) (A.ent (bidx A.n1 i) (bidx A.n2 j))))
  | _, _ => Except.error Err.shapeMismatch

/-- tf.expand_dims(A, [0]) on a rank 2 tensor, giving shape [1, n1, n2]. -/
def tfExpandDims0 (A : T2 K) : T3 K := T3.mk3 1 A.n1 A.n2 (fun _ i j => A.ent i j)

/-- tf.expand_dims(t, [0]) on a rank 3 tensor, giving shape [1, n1, n2, n3]. -/
def tfExpandDims0R4 (t : T3 K) : T4 K := T4.mk4 1 t.n1 t.n2 t.n3 (fun _ i j k => t.ent i j k)

/-- tf.tile on a rank 3 tensor.  tensorflow requires the multiples vector
to have exactly one entry per input dimension; any other length is
rejected when the op is built. -/
def tfTile3 (t : T3 K) (multiples : List ℕ) : Except Err (T3 K) :=
  match multiples with
  | [a, b, c] =>
      Except.ok (T3.mk3 (t.n1 * a) (t.n2 * b) (t.n3 * c)
        (fun i j k => t.ent (i % t.n1) (j % t.n2) (k % t.n3)))
  | _ => Except.error Err.invalidOp

/-- tf.tile on a rank 4 tensor.  tensorflow requires the multiples vector
to have exactly one entry per input dimension; any other length is
rejected when the op is built. -/
def tfTile4 (t : T4 K) (multiples : List ℕ) : Except Err (T4 K) :=
  match multiples with
  | [a, b, c, d] =>
      Except.ok (T4.mk4 (t.n1 * a) (t.n2 * b) (t.n3 * c) (t.n4 * d)
        (fun i j k l => t.ent (i % t.n1) (j % t.n2) (k % t.n3) (l % t.n4)))
  | _ => Except.error Err.invalidOp

/-- tf.batch_matmul on two rank 4 tensors: matrix product of the trailing
two axes over matching leading batch axes. -/
def tfBatchMatmul4 (A B : T4 K) : Except Err (T4 K) :=
  if A.n1 = B.n1 ∧ A.n2 = B.n2 ∧ A.n4 = B.n3 then
    Except.ok (T4.mk4 A.n1 A.n2 A.n3 B.n4
      (fun s m i j => ∑ k ∈ Finset.range A.n4, A.ent s m i k * B.ent s m k j))
  else Except.error Err.shapeMismatch

/-- tf.squeeze(t, [3]) on a rank 4 tensor: drops the last axis, which must
have size 1. -/
def tfSqueeze3 (t : T4 K) : Except Err (T3 K) :=
  if t.n4 = 1 then
    Except.ok (T3.mk3 t.n1 t.n2 t.n3 (fun a b c => t.ent a b c 0))
  else Except.error Err.invalidOp

/-- The source calls tf.stranspose, an attribute the tensorflow module
does not have, so evaluating the call site raises AttributeError; the
intended op was plainly tf.transpose. -/
def tfStranspose (_t : T3 K) (_perm : List ℕ) : Except Err (T3 K) :=
  Except.error Err.attributeError

/-- tf.reduce_mean over axis 0 of a rank 3 tensor. -/
def reduceMean0 (t : T3 K) : T2 K :=
  T2.mk2 t.n2 t.n3 (fun i j => (∑ s ∈ Finset.range t.n1, t.ent s i j) / (t.n1 : K))

/-- StochasticLikelihood.transform, lines 61-71: the base class raises
NotImplementedError. -/
def StochasticLikelihood.transform (_F : T3 K) : Except Err (T3 K) :=
  Except.error Err.unimplementedCapability

/-- StochasticLikelihood.logp, lines 73-74: the base class raises
NotImplementedError. -/
def StochasticLikelihood.logp (_Gmu _Gvar _Y : T2 K) : Except Err (T2 K) :=
  Except.error Err.unimplementedCapability

/-- StochasticLikelihood.estimate_mu_var, lines 76-87: mean over the
sample axis, and mean of the squared deviation over the sample axis. -/
def StochasticLikelihood.estimate_mu_var (G : T3 K) : Except Err (T2 K × T2 K) := do
  let Gmu := reduceMean0 G
  let D ← T3.zip2B (fun a b => a - b) G Gmu
  let Gvar := reduceMean0 (T3.map3 (fun x => x ^ 2) D)
  return (Gmu, Gvar)

/-- StochasticLikelihood.stochastic_expectations, lines 20-59, as graph
construction.  The method dispatch of transform is passed explicitly, as
is variational_expectations, which lives in the external GPflow base class
and is not part of this repository.  The random stream is threaded but
graph construction consumes nothing from it.  Line 46 tiles a rank 4
tensor with the length 3 multiples vector [num_samples, 1, 1], which
tensorflow rejects, so construction always fails there; line 51 would
afterwards hit the nonexistent tf.stranspose. -/
def StochasticLikelihood.stochastic_expectations (num_samples : ℕ) (stream : ℕ → K)
    (transform : T3 K → Except Err (T3 K)) (varExp : T2 K → T2 K → T2 K → Except Err (T2 K))
    (Fmu : T2 K) (L : T3 K) (Y : T2 K) : Except Err (T2 K) := do
  let rndn : T4 K := T4.mk4 num_samples L.n3 L.n2 1
    (fun s m n _ => stream ((s * L.n3 + m) * L.n2 + n))
  let Ltiled ← tfTile4 (tfExpandDims0R4 (tfTranspose201 L)) [num_samples, 1, 1]
  let Xbase ← tfTile3 (tfExpandDims0 Fmu) [num_samples, 1, 1]
  let prod ← tfBatchMatmul4 Ltiled rndn
  let sq ← tfSqueeze3 prod
  let noise ← tfStranspose sq [0, 2, 1]
  let X ← T3.zipB3 (fun a b => a + b) Xbase noise
  let G ← transform X
  let mv ← StochasticLikelihood.estimate_mu_var G
  varExp mv.1 mv.2 Y

/-- The Gaussian likelihood configuration: Gaussian.__init__, lines
95-102, stores a positive variance parameter initialized to 1.0, the
sample count (default 20) and the exact flag (default true). -/
structure Gaussian (K : Type) where
  variance : K
  num_samples : ℕ
  exact : Bool

/-- Attribute names assigned by Gaussian.__init__ (num_samples through the
base constructor, then variance and exact). -/
def Gaussian.initAttrs : List String := ["num_samples", "variance", "exact"]

/-- Gaussian.transform, lines 104-105: the identity. -/
def Gaussian.transform (F : T3 K) : Except Err (T3 K) := Except.ok F

/-- The Gaussian exact branch, lines 111-117: L is transposed to [M,N,N],
Fvar is the per output diagonal of L times L transposed, Fmu and Y are
transposed, and the closed form gaussian expected log density is
evaluated elementwise with the scalar terms broadcast.  The log function
and the constant pi of the ambient numeric library are passed as
parameters of the embedding. -/
def Gaussian.exactPath (log : K → K) (pi : K) (variance : K)
    (Fmu : T2 K) (L : T3 K) (Y : T2 K) : Except Err (T2 K) := do
  let Lt := tfTranspose201 L
  let P ← tfBatchMatmulAdjY Lt Lt
  let Fvar ← tfBatchMatrixDiagPart P
  let Fmu2 := tfTranspose2 Fmu
  let Y2 := tfTranspose2 Y
  let D ← T2.zipB (fun a b => a - b) Y2 Fmu2
  let S ← T2.zipB (fun a b => a + b) (T2.map (fun x => x ^ 2) D) Fvar
  return T2.map (fun s =>
    -(1 / 2) * log (2 * pi) - (1 / 2) * log variance - (1 / 2) * s / variance) S

/-- Gaussian.stochastic_expectations, lines 110-119: dispatch on the exact
flag between the closed form branch and the inherited stochastic path
(with the identity transform of this class). -/
def Gaussian.stochastic_expectations (log : K → K) (pi : K) (g : Gaussian K)
    (stream : ℕ → K) (varExp : T2 K → T2 K → T2 K → Except Err (T2 K))
    (Fmu : T2 K) (L : T3 K) (Y : T2 K) : Except Err (T2 K) :=
  if g.exact then Gaussian.exactPath log pi g.variance Fmu L Y
  else StochasticLikelihood.stochastic_expectations g.num_samples stream
    Gaussian.transform varExp Fmu L Y

/-- The Poisson likelihood configuration: Poisson.__init__, lines 123-129,
stores the inverse link (default exp), the sample count and the exact
flag.  It assigns no variance attribute. -/
structure Poisson (K : Type) where
  invlink : K → K
  num_samples : ℕ
  exact : Bool

/-- Attribute names assigned by Poisson.__init__ (num_samples through the
base constructor, then invlink and exact). -/
def Poisson.initAttrs : List String := ["num_samples", "invlink", "exact"]

/-- The closed form expression spelled out by the Poisson exact branch,
lines 134-141, abstracted over the value that the variance attribute
lookup, undefined on Poisson, would have to produce.  It is transcribed
from those lines independently of the Gaussian branch. -/
def Poisson.exactFormula (log : K → K) (pi : K) (variance : K)
    (Fmu : T2 K) (L : T3 K) (Y : T2 K) : Except Err (T2 K) := do
  let Lt := tfTranspose201 L
  let P ← tfBatchMatmulAdjY Lt Lt
  let Fvar ← tfBatchMatrixDiagPart P
  let Fmu2 := tfTranspose2 Fmu
  let Y2 := tfTranspose2 Y
  let D ← T2.zipB (fun a b => a - b) Y2 Fmu2
  let S ← T2.zipB (fun a b => a + b) (T2.map (fun x => x ^ 2) D) Fvar
  return T2.map (fun s =>
    -(1 / 2) * log (2 * pi) - (1 / 2) * log variance - (1 / 2) * s / variance) S

/-- Poisson.stochastic_expectations, lines 134-144.  The exact branch
builds the transposes and Fvar of lines 136-139 and then, inside the
return expression of line 140, evaluates self.variance; Poisson assigns
no variance attribute, so that lookup raises AttributeError.  The
non-exact branch delegates to the base stochastic path with
invlink(Fmu) as the mean; Poisson does not override transform, so the
base transform is what that path dispatches to. -/
def Poisson.stochastic_expectations (p : Poisson K) (stream : ℕ → K)
    (varExp : T2 K → T2 K → T2 K → Except Err (T2 K))
    (Fmu : T2 K) (L : T3 K) (Y : T2 K) : Except Err (T2 K) :=
  if p.exact then do
    let Lt := tfTranspose201 L
    let P ← tfBatchMatmulAdjY Lt Lt
    let _Fvar ← tfBatchMatrixDiagPart P
    let _Fmu2 := tfTranspose2 Fmu
    let _Y2 := tfTranspose2 Y
    Except.error Err.attributeError
  else
    StochasticLikelihood.stochastic_expectations p.num_samples stream
      StochasticLikelihood.transform varExp (T2.map p.invlink Fmu) L Y

/-- The matrix product part of the exact branch in closed form: for output
m, batch slice of the transposed L times its own transpose. -/
def gFvarP (L : T3 K) : T3 K :=
  T3.mk3 L.n3 L.n1 L.n1 (fun b i j =>
    ∑ k ∈ Finset.range L.n2, (tfTranspose201 L).ent b i k * (tfTranspose201 L).ent b j k)

/-- The value computed by lines 112-113: for each output m the diagonal of
L times L transposed, a tensor of shape [M, N]. -/
def gFvar (L : T3 K) : T2 K :=
  T2.mk2 L.n3 L.n1 (fun b i => (gFvarP L).ent b i i)

/-- The part of the exact branch after Fvar is built: transposes of Fmu
and Y, the broadcast difference, square, sum with Fvar, and the affine
map with the log terms. -/
def exactTail (log : K → K) (pi variance : K) (Fmu Y Fvar : T2 K) : Except Err (T2 K) := do
  let Fmu2 := tfTranspose2 Fmu
  let Y2 := tfTranspose2 Y
  let D ← T2.zipB (fun a b => a - b) Y2 Fmu2
  let S ← T2.zipB (fun a b => a + b) (T2.map (fun x => x ^ 2) D) Fvar
  return T2.map (fun s =>
    -(1 / 2) * log (2 * pi) - (1 / 2) * log variance - (1 / 2) * s / variance) S

/-- A fixed random stream used in concrete instantiations. -/
def stream0 : ℕ → K := fun _ => 0

/-- A concrete stand in for the external GPflow variational_expectations
callback used in concrete instantiations. -/
def varExp0 : T2 K → T2 K → T2 K → Except Err (T2 K) := fun Gmu _ _ => Except.ok Gmu

/-- Concrete input: Fmu of shape [1,1] with entry 0. -/
def Fmu0 : T2 K := ⟨1, 1, fun _ _ => 0⟩

/-- Concrete input: L of shape [1,1,1] with entry 1. -/
def L0 : T3 K := ⟨1, 1, 1, fun _ _ _ => 1⟩

/-- Concrete input: Y of shape [1,1] with entry 0. -/
def Y0 : T2 K := ⟨1, 1, fun _ _ => 0⟩

/-- Concrete input: Fmu of shape [2,1] with entries 0. -/
def Fmu21 : T2 K := ⟨2, 1, fun _ _ => 0⟩

/-- Concrete input: identity like Cholesky factor of shape [2,2,1]. -/
def L221 : T3 K := ⟨2, 2, 1, fun i j _ => if i = j then 1 else 0⟩

/-- Concrete input: a different factor of shape [2,2,1] whose first column
is all ones; the diagonals of L times L transposed agree with those of
L221 while the off diagonal entries differ. -/
def L221alt : T3 K := ⟨2, 2, 1, fun _ j _ => if j = 0 then 1 else 0⟩

/-- Concrete input: Y of shape [2,1] with entries 0. -/
def Y21 : T2 K := ⟨2, 1, fun _ _ => 0⟩

/-- Concrete input of the failure scenario: Fmu of shape [5,2]. -/
def Fmu52 : T2 K := ⟨5, 2, fun _ _ => 0⟩

/-- Concrete input of the failure scenario: L of shape [5,5,3], whose last
axis differs from the column count of Fmu52. -/
def L553 : T3 K := ⟨5, 5, 3, fun i j _ => if i = j then 1 else 0⟩

/-- Concrete input of the failure scenario: Y of shape [5,2]. -/
def Y52 : T2 K := ⟨5, 2, fun _ _ => 0⟩

/-- Concrete sample tensor with a single draw: shape [1,2,2], entries 2. -/
def GW : T3 K := ⟨1, 2, 2, fun _ _ _ => 2⟩

theorem ok_bind {α β : Type} (a : α) (f : α → Except Err β) :
    (Except.ok a >>= f) = f a := rfl

theorem error_bind {α β : Type} (e : Err) (f : α → Except Err β) :
    ((Except.error e : Except Err α) >>= f) = Except.error e := rfl

theorem bcastDim_self (a : ℕ) : bcastDim a a = some a := by
  simp [bcastDim]

theorem bidx_of_lt {d i : ℕ} (h : i < d) : bidx d i = i := by
  unfold bidx
  split
  · omega
  · rfl

theorem matmulAdjY_self (A : T3 K) :
    tfBatchMatmulAdjY A A = Except.ok (T3.mk3 A.n1 A.n2 A.n2
      (fun b i j => ∑ k ∈ Finset.range A.n3, A.ent b i k * A.ent b j k)) := by
  unfold tfBatchMatmulAdjY
  rw [if_pos ⟨rfl, rfl⟩]

theorem diagPart_mk3 (a b : ℕ) (f : ℕ → ℕ → ℕ → K) :
    tfBatchMatrixDiagPart (T3.mk3 a b b f) =
      Except.ok (T2.mk2 a b (fun m i => (T3.mk3 a b b f).ent m i i)) := by
  unfold tfBatchMatrixDiagPart
  rw [if_pos (show (T3.mk3 a b b f).n2 = (T3.mk3 a b b f).n3 from rfl)]
  rfl

theorem exactPath_eq (log : K → K) (pi v : K) (Fmu : T2 K) (L : T3 K) (Y : T2 K) :
    Gaussian.exactPath log pi v Fmu L Y = exactTail log pi v Fmu Y (gFvar L) := by
  show tfBatchMatmulAdjY (tfTranspose201 L) (tfTranspose201 L) >>=
      (fun P => tfBatchMatrixDiagPart P >>= fun Fvar => exactTail log pi v Fmu Y Fvar)
      = exactTail log pi v Fmu Y (gFvar L)
  rw [matmulAdjY_self, ok_bind, diagPart_mk3, ok_bind]
  rfl

theorem zipB_eq_ok (f : K → K → K) (A B : T2 K) (h1 : A.n1 = B.n1) (h2 : A.n2 = B.n2) :
    T2.zipB f A B = Except.ok (T2.mk2 A.n1 A.n2 (fun i j =>
      f (A.ent (bidx A.n1 i) (bidx A.n2 j)) (B.ent (bidx B.n1 i) (bidx B.n2 j)))) := by
  unfold T2.zipB
  rw [h1, h2, bcastDim_self, bcastDim_self]

theorem zip2B_eq_ok (f : K → K → K) (G : T3 K) (A : T2 K)
    (h1 : G.n2 = A.n1) (h2 : G.n3 = A.n2) :
    T3.zip2B f G A = Except.ok (T3.mk3 G.n1 G.n2 G.n3 (fun s i j =>
      f (G.ent s (bidx G.n2 i) (bidx G.n3 j)) (A.ent (bidx A.n1 i) (bidx A.n2 j)))) := by
  unfold T3.zip2B
  rw [h1, h2, bcastDim_self, bcastDim_self]

theorem stochasticPath_error (num_samples : ℕ) (stream : ℕ → K)
    (transform : T3 K → Except Err (T3 K)) (varExp : T2 K → T2 K → T2 K → Except Err (T2 K))
    (Fmu : T2 K) (L : T3 K) (Y : T2 K) :
    StochasticLikelihood.stochastic_expectations num_samples stream transform varExp Fmu L Y
      = Except.error Err.invalidOp := rfl

theorem estimate_mu_var_eq (G : T3 K) :
    StochasticLikelihood.estimate_mu_var G = Except.ok (reduceMean0 G,
      reduceMean0 (T3.map3 (fun x => x ^ 2) (T3.mk3 G.n1 G.n2 G.n3 (fun s i j =>
        G.ent s (bidx G.n2 i) (bidx G.n3 j)
          - (reduceMean0 G).ent (bidx G.n2 i) (bidx G.n3 j))))) := by
  show T3.zip2B (fun a b => a - b) G (reduceMean0 G) >>= _ = _
  rw [zip2B_eq_ok _ _ _ rfl rfl, ok_bind]
  rfl

theorem zipB_ok_ex (f : K → K → K) (A B : T2 K) (h1 : A.n1 = B.n1) (h2 : A.n2 = B.n2) :
    ∃ C, T2.zipB f A B = Except.ok C ∧ C.n1 = A.n1 ∧ C.n2 = A.n2 :=
  ⟨_, zipB_eq_ok f A B h1 h2, rfl, rfl⟩

theorem exactTail_ok (log : K → K) (pi v : K) (Fmu Y Fvar : T2 K)
    (h1 : Fmu.n1 = Y.n1) (h2 : Fmu.n2 = Y.n2) (h3 : Fvar.n1 = Y.n2) (h4 : Fvar.n2 = Y.n1) :
    ∃ E, exactTail log pi v Fmu Y Fvar = Except.ok E ∧ E.n1 = Y.n2 ∧ E.n2 = Y.n1 := by
  obtain ⟨D, hD, hD1, hD2⟩ := zipB_ok_ex (K := K) (fun a b => a - b)
    (tfTranspose2 Y) (tfTranspose2 Fmu)
    (show Y.n2 = Fmu.n2 from h2.symm) (show Y.n1 = Fmu.n1 from h1.symm)
  obtain ⟨S, hS, hS1, hS2⟩ := zipB_ok_ex (K := K) (fun a b => a + b)
    (T2.map (fun x => x ^ 2) D) Fvar
    (show D.n1 = Fvar.n1 from hD1.trans h3.symm)
    (show D.n2 = Fvar.n2 from hD2.trans h4.symm)
  refine ⟨T2.map (fun s =>
    -(1 / 2) * log (2 * pi) - (1 / 2) * log v - (1 / 2) * s / v) S, ?_, ?_, ?_⟩
  · show T2.zipB (fun a b => a - b) (tfTranspose2 Y) (tfTranspose2 Fmu) >>= _ = _
    rw [hD, ok_bind, hS, ok_bind]
    rfl
  · exact hS1.trans hD1
  · exact hS2.trans hD2

theorem gFvar_congr (L1 L2 : T3 K) (h1 : L1.n1 = L2.n1) (h2 : L1.n2 = L2.n2)
    (h3 : L1.n3 = L2.n3)
    (hdiag : ∀ m i, m < L1.n3 → i < L1.n1 →
      ∑ k ∈ Finset.range L1.n2, L1.ent i k m * L1.ent i k m
        = ∑ k ∈ Finset.range L2.n2, L2.ent i k m * L2.ent i k m) :
    gFvar L1 = gFvar L2 := by
  obtain ⟨a1, b1, c1, f1⟩ := L1
  obtain ⟨a2, b2, c2, f2⟩ := L2
  dsimp only at h1 h2 h3 hdiag
  subst h1
  subst h2
  subst h3
  unfold gFvar gFvarP tfTranspose201 T3.mk3 T2.mk2
  dsimp only
  congr 1
  funext m i
  by_cases h : m < c1 ∧ i < a1
  · rw [if_pos h, if_pos h, if_pos ⟨h.1, h.2, h.2⟩, if_pos ⟨h.1, h.2, h.2⟩]
    calc (∑ k ∈ Finset.range b1,
            (if m < c1 ∧ i < a1 ∧ k < b1 then f1 i k m else 0)
              * (if m < c1 ∧ i < a1 ∧ k < b1 then f1 i k m else 0))
        = ∑ k ∈ Finset.range b1, f1 i k m * f1 i k m := by
          refine Finset.sum_congr rfl fun k hk => ?_
          rw [if_pos ⟨h.1, h.2, Finset.mem_range.mp hk⟩]
      _ = ∑ k ∈ Finset.range b1, f2 i k m * f2 i k m := hdiag m i h.1 h.2
      _ = ∑ k ∈ Finset.range b1,
            (if m < c1 ∧ i < a1 ∧ k < b1 then f2 i k m else 0)
              * (if m < c1 ∧ i < a1 ∧ k < b1 then f2 i k m else 0) := by
          refine Finset.sum_congr rfl fun k hk => ?_
          rw [if_pos ⟨h.1, h.2, Finset.mem_range.mp hk⟩]
  · rw [if_neg h, if_neg h]

/-- C2: for the Poisson likelihood with exact set, the exact branch spells
out the identical closed form expression as the Gaussian exact branch,
with Fvar the diagonal of L times L transposed per output, while the
variance attribute the expression reads is assigned by the Gaussian
constructor and not by the Poisson constructor. -/
theorem c2_poisson_exact_copies_gaussian :
    (∀ (v : ℝ) (Fmu : T2 ℝ) (L : T3 ℝ) (Y : T2 ℝ),
      Poisson.exactFormula Real.log Real.pi v Fmu L Y
        = Gaussian.exactPath Real.log Real.pi v Fmu L Y) ∧
    "variance" ∈ Gaussian.initAttrs ∧ "variance" ∉ Poisson.initAttrs :=
  ⟨fun _ _ _ _ => rfl, by decide, by decide⟩

/-- C5: the generic stochastic sampling path never produces the sample
tensor the comments in lines 41-51 describe: the tile of the rank 4
broadcast of L with a length 3 multiples vector is rejected by tf.tile,
so every call fails at graph construction with the invalid op error (and
line 51 would afterwards hit the nonexistent tf.stranspose). -/
theorem c5_sampler_never_builds :
    (∀ (S : ℕ) (stream : ℕ → ℝ) (transform : T3 ℝ → Except Err (T3 ℝ))
      (varExp : T2 ℝ → T2 ℝ → T2 ℝ → Except Err (T2 ℝ)) (Fmu : T2 ℝ) (L : T3 ℝ) (Y : T2 ℝ),
      StochasticLikelihood.stochastic_expectations S stream transform varExp Fmu L Y
        = Except.error Err.invalidOp) ∧
    StochasticLikelihood.stochastic_expectations 20 stream0 StochasticLikelihood.transform
      varExp0 (Fmu0 : T2 ℝ) L0 Y0 = Except.error Err.invalidOp :=
  ⟨fun _ _ _ _ _ _ _ => stochasticPath_error _ _ _ _ _ _ _, rfl⟩

/-- C7: the base class declares transform and logp but provides no
implementation: every invocation of the defaults raises the
unimplemented capability error, never a default value. -/
theorem c7_base_defaults_raise :
    (∀ F : T3 ℝ, StochasticLikelihood.transform F
        = Except.error Err.unimplementedCapability) ∧
    (∀ Gmu Gvar Y : T2 ℝ, StochasticLikelihood.logp Gmu Gvar Y
        = Except.error Err.unimplementedCapability) :=
  ⟨fun _ => rfl, fun _ _ _ => rfl⟩

/-- C8: with the random stream state fixed to the same value, two calls
of stochastic_expectations with identical arguments and configuration
return identical results, on the Gaussian and the Poisson dispatchers
alike; the stream is the only ambient state the embedding threads. -/
theorem c8_rng_determinism (g : Gaussian ℝ) (p : Poisson ℝ) (sA sB : ℕ → ℝ)
    (varExp : T2 ℝ → T2 ℝ → T2 ℝ → Except Err (T2 ℝ))
    (Fmu : T2 ℝ) (L : T3 ℝ) (Y : T2 ℝ) (h : sA = sB) :
    Gaussian.stochastic_expectations Real.log Real.pi g sA varExp Fmu L Y
      = Gaussian.stochastic_expectations Real.log Real.pi g sB varExp Fmu L Y ∧
    Poisson.stochastic_expectations p sA varExp Fmu L Y
      = Poisson.stochastic_expectations p sB varExp Fmu L Y := by
  subst h
  exact ⟨rfl, rfl⟩

theorem c8_rng_determinism_witness :
    (stream0 : ℕ → ℝ) = stream0 ∧
    (Gaussian.stochastic_expectations Real.log Real.pi ⟨1, 20, true⟩ stream0 varExp0 Fmu0 L0 Y0
       = Gaussian.stochastic_expectations Real.log Real.pi ⟨1, 20, true⟩ stream0 varExp0 Fmu0 L0 Y0 ∧
     Poisson.stochastic_expectations (⟨fun x => x, 20, false⟩ : Poisson ℝ) stream0 varExp0 Fmu0 L0 Y0
       = Poisson.stochastic_expectations (⟨fun x => x, 20, false⟩ : Poisson ℝ) stream0 varExp0 Fmu0 L0 Y0) :=
  ⟨rfl, c8_rng_determinism ⟨1, 20, true⟩ (⟨fun x => x, 20, false⟩ : Poisson ℝ) stream0 stream0
    varExp0 Fmu0 L0 Y0 rfl⟩

/-- C9 counterexample: on a Poisson likelihood built with exact false the
call fails, but with the invalid op error of the defective sampling code,
not with the unimplemented capability error the claim names. -/
theorem c9_counterexample :
    Poisson.stochastic_expectations (⟨fun x => x, 20, false⟩ : Poisson ℝ)
        stream0 varExp0 Fmu0 L0 Y0 = Except.error Err.invalidOp ∧
      Err.invalidOp ≠ Err.unimplementedCapability :=
  ⟨rfl, by decide⟩

/-- C9 amended: every call of stochastic_expectations on a Poisson
likelihood with exact false fails before producing any result, for every
input; the error is the invalid op failure of the inherited sampling code
(the malformed tile of line 46 and the nonexistent tf.stranspose of line
51), which is raised before the unimplemented base transform could ever
be dispatched. -/
theorem c9_nonexact_poisson_fails (p : Poisson ℝ) (stream : ℕ → ℝ)
    (varExp : T2 ℝ → T2 ℝ → T2 ℝ → Except Err (T2 ℝ))
    (Fmu : T2 ℝ) (L : T3 ℝ) (Y : T2 ℝ) (h : p.exact = false) :
    Poisson.stochastic_expectations p stream varExp Fmu L Y
      = Except.error Err.invalidOp := by
  unfold Poisson.stochastic_expectations
  rw [h, if_neg Bool.false_ne_true]
  exact stochasticPath_error _ _ _ _ _ _ _

theorem c9_nonexact_poisson_fails_witness :
    (⟨fun x => x, 20, false⟩ : Poisson ℝ).exact = false ∧
    Poisson.stochastic_expectations (⟨fun x => x, 20, false⟩ : Poisson ℝ)
      stream0 varExp0 Fmu21 L221 Y21 = Except.error Err.invalidOp :=
  ⟨rfl, c9_nonexact_poisson_fails _ stream0 varExp0 Fmu21 L221 Y21 rfl⟩

/-- C3 counterexample: with the stochastic path selected (exact false),
the failure scenario with Fmu of shape [5,2] and L of shape [5,5,3] does
fail before any sampling, but with the invalid op error of the defective
sampler, not with a shape mismatch error as the claim states for every
call. -/
theorem c3_counterexample :
    Gaussian.stochastic_expectations Real.log Real.pi ⟨1, 20, false⟩
        stream0 varExp0 Fmu52 L553 Y52 = Except.error Err.invalidOp ∧
      Err.invalidOp ≠ Err.shapeMismatch :=
  ⟨rfl, by decide⟩

/-- C3 amended: on the default exact Gaussian path the failure scenario
of Fmu [5,2] with L [5,5,3] raises the shape mismatch error from
broadcasting, with no sampling and no partial result, for every variance,
stream and callback; on the generic stochastic path the same call also
fails before any sampling and yields no partial result, but with the
invalid op error of the defective sampler rather than a shape mismatch. -/
theorem c3_failure_scenario :
    (∀ (v : ℝ) (stream : ℕ → ℝ) (varExp : T2 ℝ → T2 ℝ → T2 ℝ → Except Err (T2 ℝ)),
      Gaussian.stochastic_expectations Real.log Real.pi ⟨v, 20, true⟩
        stream varExp Fmu52 L553 Y52 = Except.error Err.shapeMismatch) ∧
    (∀ (S : ℕ) (stream : ℕ → ℝ) (transform : T3 ℝ → Except Err (T3 ℝ))
      (varExp : T2 ℝ → T2 ℝ → T2 ℝ → Except Err (T2 ℝ)),
      StochasticLikelihood.stochastic_expectations S stream transform varExp Fmu52 L553 Y52
        = Except.error Err.invalidOp) :=
  ⟨fun _ _ _ => rfl, fun _ _ _ _ => rfl⟩

/-- C1 counterexample: on the default exact Gaussian path with Fmu and Y
of shape [2,1] and L of shape [2,2,1], the returned array has shape
[1,2], not the exact shape of Y. -/
theorem c1_counterexample :
    ∃ E : T2 ℝ, Gaussian.stochastic_expectations Real.log Real.pi ⟨1, 20, true⟩
        stream0 varExp0 Fmu21 L221 Y21 = Except.ok E ∧
      E.n1 = 1 ∧ E.n2 = 2 ∧ ¬(E.n1 = (Y21 : T2 ℝ).n1 ∧ E.n2 = (Y21 : T2 ℝ).n2) :=
  ⟨_, rfl, rfl, rfl, by decide⟩

/-- C1 amended: for valid inputs with Fmu and Y of shape [N,M] and L of
shape [N,N,M], the Gaussian exact path returns an array of shape [M,N],
the transpose of the shape of Y; the generic stochastic path never
returns an array at all, failing at graph construction for every input. -/
theorem c1_exact_shape_transposed :
    (∀ (g : Gaussian ℝ) (stream : ℕ → ℝ)
      (varExp : T2 ℝ → T2 ℝ → T2 ℝ → Except Err (T2 ℝ))
      (Fmu : T2 ℝ) (L : T3 ℝ) (Y : T2 ℝ),
      g.exact = true → Fmu.n1 = Y.n1 → Fmu.n2 = Y.n2 →
      L.n1 = Y.n1 → L.n2 = Y.n1 → L.n3 = Y.n2 →
      ∃ E, Gaussian.stochastic_expectations Real.log Real.pi g stream varExp Fmu L Y
          = Except.ok E ∧ E.n1 = Y.n2 ∧ E.n2 = Y.n1) ∧
    (∀ (S : ℕ) (stream : ℕ → ℝ) (transform : T3 ℝ → Except Err (T3 ℝ))
      (varExp : T2 ℝ → T2 ℝ → T2 ℝ → Except Err (T2 ℝ)) (Fmu : T2 ℝ) (L : T3 ℝ) (Y : T2 ℝ),
      StochasticLikelihood.stochastic_expectations S stream transform varExp Fmu L Y
        = Except.error Err.invalidOp) := by
  constructor
  · intro g stream varExp Fmu L Y hex hF1 hF2 hL1 hL2 hL3
    unfold Gaussian.stochastic_expectations
    rw [hex, if_pos rfl, exactPath_eq]
    exact exactTail_ok Real.log Real.pi g.variance Fmu Y (gFvar L) hF1 hF2 hL3 hL1
  · intro S stream transform varExp Fmu L Y
    exact stochasticPath_error _ _ _ _ _ _ _

theorem c1_exact_shape_transposed_witness :
    ((⟨1, 20, true⟩ : Gaussian ℝ).exact = true ∧
     (Fmu21 : T2 ℝ).n1 = (Y21 : T2 ℝ).n1 ∧ (Fmu21 : T2 ℝ).n2 = (Y21 : T2 ℝ).n2 ∧
     (L221 : T3 ℝ).n1 = (Y21 : T2 ℝ).n1 ∧ (L221 : T3 ℝ).n2 = (Y21 : T2 ℝ).n1 ∧
     (L221 : T3 ℝ).n3 = (Y21 : T2 ℝ).n2) ∧
    (∃ E, Gaussian.stochastic_expectations Real.log Real.pi ⟨1, 20, true⟩
        stream0 varExp0 Fmu21 L221 Y21 = Except.ok E ∧
      E.n1 = (Y21 : T2 ℝ).n2 ∧ E.n2 = (Y21 : T2 ℝ).n1) :=
  ⟨⟨rfl, rfl, rfl, rfl, rfl, rfl⟩,
    c1_exact_shape_transposed.1 ⟨1, 20, true⟩ stream0 varExp0 Fmu21 L221 Y21
      rfl rfl rfl rfl rfl rfl⟩

/-- C4: the concrete single point scenario with Fmu = [[0]], L = [[[1]]],
Y = [[0]], variance 1 and the exact flag yields a single scalar equal to
the closed form value, minus one half of the log of two pi minus one
half, within one millionth. -/
theorem c4_concrete_scenario :
    ∃ E : T2 ℝ, Gaussian.stochastic_expectations Real.log Real.pi ⟨1, 20, true⟩
        stream0 varExp0 Fmu0 L0 Y0 = Except.ok E ∧
      E.n1 = 1 ∧ E.n2 = 1 ∧
      (E.ent 0 0 = -(1 / 2) * Real.log (2 * Real.pi) - 1 / 2 ∧
       |E.ent 0 0 - (-(1 / 2) * Real.log (2 * Real.pi) - 1 / 2)| < 1 / 1000000) := by
  have key : ∀ x : ℝ, x = -(1 / 2) * Real.log (2 * Real.pi) - 1 / 2 →
      (x = -(1 / 2) * Real.log (2 * Real.pi) - 1 / 2 ∧
       |x - (-(1 / 2) * Real.log (2 * Real.pi) - 1 / 2)| < 1 / 1000000) := by
    intro x h
    refine ⟨h, ?_⟩
    rw [h]
    norm_num
  refine ⟨_, rfl, rfl, rfl, key _ ?_⟩
  norm_num [Gaussian.stochastic_expectations, Gaussian.exactPath, exactTail, T2.map,
    T2.mk2, T3.mk3, T2.zipB, bidx, bcastDim, tfTranspose2, tfTranspose201,
    tfBatchMatmulAdjY, tfBatchMatrixDiagPart, Fmu0, L0, Y0,
    Finset.sum_range_one, Real.log_one]

/-- C6: estimate_mu_var returns the mean over the sample axis and the
mean of the squared deviation over the sample axis, each of the shape of
G with the sample axis removed, and with a single sample the call
succeeds and the variance is identically zero. -/
theorem c6_estimate_mu_var (G : T3 ℝ) (hS : 0 < G.n1) :
    ∃ Gmu Gvar : T2 ℝ, StochasticLikelihood.estimate_mu_var G = Except.ok (Gmu, Gvar) ∧
      Gmu.n1 = G.n2 ∧ Gmu.n2 = G.n3 ∧ Gvar.n1 = G.n2 ∧ Gvar.n2 = G.n3 ∧
      (∀ i j, i < G.n2 → j < G.n3 →
        Gmu.ent i j = (∑ s ∈ Finset.range G.n1, G.ent s i j) / (G.n1 : ℝ)) ∧
      (∀ i j, i < G.n2 → j < G.n3 →
        Gvar.ent i j
          = (∑ s ∈ Finset.range G.n1, (G.ent s i j - Gmu.ent i j) ^ 2) / (G.n1 : ℝ)) ∧
      (G.n1 = 1 → ∀ i j, Gvar.ent i j = 0) := by
  refine ⟨reduceMean0 G, _, estimate_mu_var_eq G, rfl, rfl, rfl, rfl, ?_, ?_, ?_⟩
  · intro i j hi hj
    simp only [reduceMean0, T2.mk2]
    rw [if_pos ⟨hi, hj⟩]
  · intro i j hi hj
    simp only [reduceMean0, T3.map3, T3.mk3, T2.mk2, bidx_of_lt hi, bidx_of_lt hj]
    rw [if_pos ⟨hi, hj⟩]
    congr 1
    refine Finset.sum_congr rfl fun s hs => ?_
    rw [if_pos ⟨Finset.mem_range.mp hs, hi, hj⟩,
      if_pos ⟨Finset.mem_range.mp hs, hi, hj⟩, if_pos ⟨hi, hj⟩]
  · intro h1 i j
    by_cases hij : i < G.n2 ∧ j < G.n3
    · simp [reduceMean0, T3.map3, T3.mk3, T2.mk2, h1, Finset.sum_range_one,
        bidx_of_lt hij.1, bidx_of_lt hij.2, hij.1, hij.2]
    · simp [reduceMean0, T3.map3, T3.mk3, T2.mk2, hij]

theorem c6_estimate_mu_var_witness :
    0 < (GW : T3 ℝ).n1 ∧
    (∃ Gmu Gvar : T2 ℝ,
      StochasticLikelihood.estimate_mu_var (GW : T3 ℝ) = Except.ok (Gmu, Gvar) ∧
      Gmu.n1 = (GW : T3 ℝ).n2 ∧ Gmu.n2 = (GW : T3 ℝ).n3 ∧
      Gvar.n1 = (GW : T3 ℝ).n2 ∧ Gvar.n2 = (GW : T3 ℝ).n3 ∧
      (∀ i j, i < (GW : T3 ℝ).n2 → j < (GW : T3 ℝ).n3 →
        Gmu.ent i j = (∑ s ∈ Finset.range (GW : T3 ℝ).n1, (GW : T3 ℝ).ent s i j)
          / ((GW : T3 ℝ).n1 : ℝ)) ∧
      (∀ i j, i < (GW : T3 ℝ).n2 → j < (GW : T3 ℝ).n3 →
        Gvar.ent i j
          = (∑ s ∈ Finset.range (GW : T3 ℝ).n1, ((GW : T3 ℝ).ent s i j - Gmu.ent i j) ^ 2)
            / ((GW : T3 ℝ).n1 : ℝ)) ∧
      ((GW : T3 ℝ).n1 = 1 → ∀ i j, Gvar.ent i j = 0)) :=
  ⟨by decide, c6_estimate_mu_var GW (by decide)⟩

/-- C10: the Gaussian exact result depends on L only through the per
output diagonal of L times L transposed: two factors of equal shape whose
diagonals agree on every in range index give equal results, whatever
their off diagonal entries. -/
theorem c10_exact_depends_only_on_diag (g : Gaussian ℝ) (stream : ℕ → ℝ)
    (varExp : T2 ℝ → T2 ℝ → T2 ℝ → Except Err (T2 ℝ))
    (Fmu Y : T2 ℝ) (L1 L2 : T3 ℝ)
    (hex : g.exact = true)
    (h1 : L1.n1 = L2.n1) (h2 : L1.n2 = L2.n2) (h3 : L1.n3 = L2.n3)
    (hdiag : ∀ m i, m < L1.n3 → i < L1.n1 →
      ∑ k ∈ Finset.range L1.n2, L1.ent i k m * L1.ent i k m
        = ∑ k ∈ Finset.range L2.n2, L2.ent i k m * L2.ent i k m) :
    Gaussian.stochastic_expectations Real.log Real.pi g stream varExp Fmu L1 Y
      = Gaussian.stochastic_expectations Real.log Real.pi g stream varExp Fmu L2 Y := by
  unfold Gaussian.stochastic_expectations
  rw [hex, if_pos rfl, if_pos rfl, exactPath_eq, exactPath_eq,
    gFvar_congr L1 L2 h1 h2 h3 hdiag]

theorem c10_exact_depends_only_on_diag_witness :
    ((⟨1, 20, true⟩ : Gaussian ℝ).exact = true ∧
     (L221 : T3 ℝ).n1 = (L221alt : T3 ℝ).n1 ∧
     (L221 : T3 ℝ).n2 = (L221alt : T3 ℝ).n2 ∧
     (L221 : T3 ℝ).n3 = (L221alt : T3 ℝ).n3 ∧
     (∀ m i, m < (L221 : T3 ℝ).n3 → i < (L221 : T3 ℝ).n1 →
       ∑ k ∈ Finset.range (L221 : T3 ℝ).n2, (L221 : T3 ℝ).ent i k m * (L221 : T3 ℝ).ent i k m
         = ∑ k ∈ Finset.range (L221alt : T3 ℝ).n2,
             (L221alt : T3 ℝ).ent i k m * (L221alt : T3 ℝ).ent i k m)) ∧
    Gaussian.stochastic_expectations Real.log Real.pi ⟨1, 20, true⟩
        stream0 varExp0 Fmu21 L221 Y21
      = Gaussian.stochastic_expectations Real.log Real.pi ⟨1, 20, true⟩
          stream0 varExp0 Fmu21 L221alt Y21 := by
  have hd : ∀ m i, m < (L221 : T3 ℝ).n3 → i < (L221 : T3 ℝ).n1 →
      ∑ k ∈ Finset.range (L221 : T3 ℝ).n2, (L221 : T3 ℝ).ent i k m * (L221 : T3 ℝ).ent i k m
        = ∑ k ∈ Finset.range (L221alt : T3 ℝ).n2,
            (L221alt : T3 ℝ).ent i k m * (L221alt : T3 ℝ).ent i k m := by
    intro m i hm hi
    have hi2 : i < 2 := hi
    interval_cases i <;>
      simp [L221, L221alt, Finset.sum_range_succ]
  exact ⟨⟨rfl, rfl, rfl, rfl, hd⟩,
    c10_exact_depends_only_on_diag ⟨1, 20, true⟩ stream0 varExp0 Fmu21 Y21 L221 L221alt
      rfl rfl rfl rfl hd⟩
